import Mathlib

/-!
Shallow embedding of the per-module event runtime of `bbot/modules/base.py`
(class `BaseModule`).  Python state is passed explicitly: a `ModuleState`
carries the mutable per-module fields, a `ModuleConfig` the class-level
declarative attributes, and a `ScanState` the scan-controller data the
runtime reads.  Machine integers do not overflow here (scope distances are
plain Python ints), so they are modelled as `Int`.  Fallible code returns
`Except`/explicit result types; user callbacks are modelled as oracles
(their return value or raised exception is an input to the embedding).
The priority ordering of the asyncio queues is abstracted: a queue is a
list of items, `put_nowait` appends and `get`/`get_nowait` takes the head.
None of the verified claims depends on the dequeue order.
-/

namespace BBot

/-- Event record: the fields of a bbot event that `base.py` reads.
`type` is the event type tag, `scope_distance` the integer scope distance,
`tags` the tag set, `sourceType` models `getattr(event.source, "type", "")`,
`module` models `str(event.module)` with `""` for a missing (falsy)
attribution, and `_stats_recorded` the stats latch. -/
structure Event where
  type : String
  scope_distance : Int
  tags : List String
  sourceType : String
  module : String
  _stats_recorded : Bool
deriving Repr, DecidableEq

/-- State of `self._incoming_event_queue`: `uninit` is Python `None`
(the property lazily creates a queue), `disabled` is the sentinel `False`
set by `set_error_state`, and `queue items` is a live queue. -/
inductive QueueState where
  | uninit
  | disabled
  | queue (items : List Event)
deriving Repr, DecidableEq

/-- The emit options `emit_event` splits off and passes to
`queue_outgoing_event`: `{on_success_callback, abort_if, quick}`.
Callables are modelled opaquely by name. -/
structure EmitKwargs where
  on_success_callback : Option String
  abort_if : Option String
  quick : Option Bool
deriving Repr, DecidableEq

/-- Mutable per-module runtime state (`BaseModule.__init__`).
`eventReceivedNotifies` / `eventDequeuedNotifies` count `notify()` calls on
the corresponding asyncio conditions, so that signalling is observable. -/
structure ModuleState where
  errored : Bool
  incoming : QueueState
  outgoing : List (Option Event × EmitKwargs)
  taskCounter : Nat
  eventReceivedNotifies : Nat
  eventDequeuedNotifies : Nat
  _cleanedup : Bool
deriving Repr, DecidableEq

/-- Class-level declarative attributes of a module that `base.py` reads. -/
structure ModuleConfig where
  name : String
  watched_events : List String
  flags : List String
  target_only : Bool
  in_scope_only : Bool
  scope_distance_modifier : Option Int
  batch_size : Nat
  mtype : String
deriving Repr, DecidableEq

/-- The scan-controller data the runtime reads (`self.scan`). -/
structure ScanState where
  scope_search_distance : Int
  whitelist : List Event
deriving Repr, DecidableEq

/-- Result of one invocation of the user coroutine `filter_event(event)`:
it may return a boolean, a `(boolean, reason)` pair, or raise.  A raised
exception is suppressed by `scan.acatch` (modelled from the spec: acatch
captures, logs and suppresses any exception inside the block). -/
inductive FilterResult where
  | ret (b : Bool)
  | retTuple (b : Bool) (reason : String)
  | raise
deriving Repr, DecidableEq

/-- Result of one invocation of the user coroutine `setup()`: a bare
return value (`True`/`False`/`None`, modelled as `Option Bool`), a
`(status, msg)` pair, or a raised exception (tagged by whether it is a
`WordlistError`, carrying its message `str(e)`). -/
inductive SetupResult where
  | ret (b : Option Bool)
  | retTuple (b : Option Bool) (msg : String)
  | raise (isWordlist : Bool) (msg : String)
deriving Repr, DecidableEq

/-- Result of one call to `scan.make_event(...)`: a minted event, or a
raised `ValidationError` with message. -/
inductive MintResult where
  | ok (e : Event)
  | validationError (msg : String)
deriving Repr, DecidableEq

/-- The `incoming_event_queue` property: if the backing field is Python
`None`, lazily create an empty queue.  The `disabled` sentinel (`False`)
is returned as is and is never re-enabled. -/
def lazyInitIncoming (st : ModuleState) : ModuleState :=
  match st.incoming with
  | QueueState.uninit => { st with incoming := QueueState.queue [] }
  | _ => st

/-- The drain loop of `set_error_state`: `while 1: get_nowait()` until
`QueueEmpty`.  Removes every item. -/
def drainQueue : List Event → List Event
  | [] => []
  | _ :: rest => drainQueue rest

/-- Helper for `set_error_state`: `self._incoming_event_queue = False`. -/
def ModuleState.setIncomingDisabled (st : ModuleState) : ModuleState :=
  { st with incoming := QueueState.disabled }

/-- `set_error_state(message)` from the source: on first call (when
`errored` is still false) set `errored`, then — the `incoming_event_queue`
property lazily creates a queue, and an asyncio queue object is always
truthy — drain the queue synchronously (`drainQueue`) and replace the
backing field by the `False` sentinel.  On later calls do nothing.
Logging is dropped. -/
def set_error_state (st : ModuleState) : ModuleState :=
  if st.errored then st
  else
    let st1 := lazyInitIncoming { st with errored := true }
    match st1.incoming with
    | QueueState.queue items =>
        ModuleState.setIncomingDisabled { st1 with incoming := QueueState.queue (drainQueue items) }
    | _ => st1

/-- Python `str.startswith`, evaluated on the character lists (the
source applies it to short ASCII type tags). -/
def pyStartsWith (s p : String) : Bool := p.toList.isPrefixOf s.toList

/-- `_event_precheck(event)` from the source, the producer-side admission
filter.  `errored` is the module's current `self.errored`.  The rules, in
source order: the `FINISHED` sentinel is always admitted; an errored
module rejects everything; non-watched types are rejected (unless the
module watches the wildcard); `target_only` modules reject untagged
events; `URL*` events tagged `httpx-only` are rejected by every module
but `httpx`; and an `IP_ADDRESS` speculated from an `IP_RANGE` is
rejected by a module (other than `speculate`) watching both types. -/
def _event_precheck (cfg : ModuleConfig) (errored : Bool) (e : Event) : Bool × String :=
  if e.type == "FINISHED" then (true, "")
  else if errored then (false, "module is in error state")
  else if !(cfg.watched_events.contains "*" || cfg.watched_events.contains e.type) then
    (false, "its type is not in watched_events")
  else if cfg.target_only && !(e.tags.contains "target") then
    (false, "it did not meet target_only filter criteria")
  else if pyStartsWith e.type "URL" && cfg.name != "httpx" && e.tags.contains "httpx-only" then
    (false, "its extension was listed in url_extension_httpx_only")
  else if e.sourceType == "IP_RANGE" && e.type == "IP_ADDRESS" && e.module == "speculate"
      && cfg.name != "speculate"
      && cfg.watched_events.contains "IP_RANGE" && cfg.watched_events.contains "IP_ADDRESS" then
    (false, "module consumes IP ranges directly")
  else (true, "")

/-- The `max_scope_distance` property.  The `none` branch of the modifier
is unreachable from `_event_postcheck`, which guards the only use of this
property by `scope_distance_modifier is not None`; in the source that
branch would be a `TypeError`. -/
def max_scope_distance (cfg : ModuleConfig) (scan : ScanState) : Int :=
  if cfg.in_scope_only || cfg.target_only then 0
  else
    match cfg.scope_distance_modifier with
    | some m => max 0 (scan.scope_search_distance + m)
    | none => 0

/-- The scope-distance block of `_event_postcheck` (the `if self._type !=
"output"` checks), returning `some reason` on rejection and `none` when
the event falls through to the custom filter. -/
def scopeReject (cfg : ModuleConfig) (scan : ScanState) (e : Event) : Option String :=
  if cfg.mtype != "output" then
    if cfg.in_scope_only && decide (e.scope_distance > 0) then
      some "it did not meet in_scope_only filter criteria"
    else
      match cfg.scope_distance_modifier with
      | some _ =>
          if e.scope_distance < 0 then
            some ("its scope_distance (" ++ toString e.scope_distance ++ ") is invalid.")
          else if e.scope_distance > max_scope_distance cfg scan then
            some ("its scope_distance (" ++ toString e.scope_distance ++
              ") exceeds the maximum allowed by the scan (" ++
              toString scan.scope_search_distance ++ ") + the module (" ++
              toString (cfg.scope_distance_modifier.getD 0) ++ ") == " ++
              toString (max_scope_distance cfg scan))
          else none
      | none => none
  else none

/-- The custom-filtering block of `_event_postcheck`, run inside
`scan.acatch(context=self.filter_event)`.  Modelled from the spec:
`scan.acatch` (scan-controller code, not under src/) captures any
exception raised inside the block, logs it with the context, and
suppresses it, so control resumes after the block.  Hence a raising
`filter_event` skips the `return False, msg` branch entirely and
yields no rejection.  A bare boolean return fails tuple unpacking with a
`TypeError` that `suppress(ValueError, TypeError)` swallows, leaving the
message as the bare `_custom_filter_criteria_msg`. -/
def filterReject (fr : FilterResult) : Option String :=
  match fr with
  | FilterResult.raise => none
  | FilterResult.ret b =>
      if !b then some "it did not meet custom filter criteria" else none
  | FilterResult.retTuple b reason =>
      if !b then some ("it did not meet custom filter criteria: " ++ reason) else none

/-- `_event_postcheck(event)` from the source, the consumer-side admission
filter.  `fr` is the outcome of this invocation of the user coroutine
`filter_event(event)`.  Returns the `(acceptable, reason)` pair together
with the event (which the output-module stats branch mutates in place in
the source).  Source order: `FINISHED` always admitted; whitelist check
for active modules; scope checks for non-output modules
(`scopeReject`); custom filter (`filterReject`); output-module stats
latch. -/
def _event_postcheck (cfg : ModuleConfig) (scan : ScanState) (fr : FilterResult)
    (e : Event) : (Bool × String) × Event :=
  if e.type == "FINISHED" then ((true, ""), e)
  else if cfg.flags.contains "active" && e.tags.contains "target"
      && !(scan.whitelist.contains e) then
    ((false, "it is not in whitelist and module has active flag"), e)
  else
    match scopeReject cfg scan e with
    | some reason => ((false, reason), e)
    | none =>
        match filterReject fr with
        | some msg => ((false, msg), e)
        | none =>
            let e2 := if cfg.mtype == "output" && !e._stats_recorded
              then { e with _stats_recorded := true } else e
            ((true, ""), e2)

/-- `queue_event(event)` from the source.  The `incoming_event_queue`
property lazily creates the queue; a disabled (`False`) queue makes the
function return at once.  Otherwise the event is pre-checked and, when
acceptable, appended (`put_nowait`) and `event_received` notified.  The
function is total: it never raises (the incoming queue is unbounded, and
the `AttributeError` guard in the source covers only the disabled
sentinel, which the early return has already excluded here). -/
def queue_event (cfg : ModuleConfig) (st : ModuleState) (e : Event) : ModuleState :=
  let st1 := lazyInitIncoming st
  match st1.incoming with
  | QueueState.disabled => st1
  | QueueState.queue items =>
      let pc := _event_precheck cfg st1.errored e
      if !pc.1 then st1
      else { st1 with incoming := QueueState.queue (items ++ [e]),
                      eventReceivedNotifies := st1.eventReceivedNotifies + 1 }
  | QueueState.uninit => st1

/-- `queue_outgoing_event(event, **kwargs)` from the source: `put_nowait`
of the `(event, kwargs)` pair on the (lazily created, never disabled)
outgoing queue.  The event may be Python `None` — the source does not
guard against it (see `emit_event`). -/
def queue_outgoing_event (st : ModuleState) (ev : Option Event) (k : EmitKwargs) :
    ModuleState :=
  { st with outgoing := st.outgoing ++ [(ev, k)] }

/-- `make_event(*args, raise_error=..., **kwargs)` from the source.
`mint` is the outcome of the wrapped `scan.make_event` call.  A
`ValidationError` is re-raised (`Except.error`) when `raise_error` is
set, otherwise warned about and swallowed (`ok none`, the Python bare
`return`).  On success a missing (falsy) `module` attribution is set to
the minting module. -/
def make_event (cfg : ModuleConfig) (raise_error : Bool) (mint : MintResult) :
    Except String (Option Event) :=
  match mint with
  | MintResult.validationError msg =>
      if raise_error then Except.error msg
      else Except.ok none
  | MintResult.ok e =>
      Except.ok (some (if e.module == "" then { e with module := cfg.name } else e))

/-- `emit_event(*args, **kwargs)` from the source: the emit options have
already been split off into `k`; the remaining kwargs (including any
`raise_error`) go to `make_event`, and whatever it returns — including
Python `None` when minting failed without `raise_error` — is passed to
`queue_outgoing_event`. -/
def emit_event (cfg : ModuleConfig) (st : ModuleState) (raise_error : Bool)
    (mint : MintResult) (k : EmitKwargs) : Except String ModuleState :=
  match make_event cfg raise_error mint with
  | Except.error msg => Except.error msg
  | Except.ok ev => Except.ok (queue_outgoing_event st ev k)

/-- Result of one call to `dequeue_outgoing_event`:
`blocked` when the `await ...get()` suspends on an empty queue;
`raised st msg` when an exception escapes after the partial effects
recorded in `st`; `ok st` on normal completion. -/
inductive DequeueResult where
  | blocked
  | raised (st : ModuleState) (msg : String)
  | ok (st : ModuleState)
deriving Repr, DecidableEq

/-- `dequeue_outgoing_event()` from the source.  `await
self.outgoing_event_queue.get()` removes the head item (suspending when
the queue is empty).  The next statement is `with self._event_dequeued:`
— a synchronous `with` on an `asyncio.Condition`.  Modelled from the
documented asyncio semantics (asyncio is outside src/): asyncio
conditions support only the asynchronous context-manager protocol, so
this raises a `TypeError` before `notify()` can run.  The item has
already been removed; `event_dequeued` is never notified. -/
def dequeue_outgoing_event (st : ModuleState) : DequeueResult :=
  match st.outgoing with
  | [] => DequeueResult.blocked
  | _ :: rest =>
      DequeueResult.raised { st with outgoing := rest }
        "TypeError: asyncio.Condition does not support the synchronous context manager protocol"

/-- The `status_codes` dictionary local to `_setup`. -/
def status_codes (b : Option Bool) : String :=
  match b with
  | some false => "hard-fail"
  | none => "soft-fail"
  | some true => "success"

/-- `_setup()` from the source.  `r` is the outcome of this invocation of
the user coroutine `setup()`.  A bare return maps through
`status_codes`; a `(status, msg)` pair is unpacked; a raised exception
calls `set_error_state()` and yields status `None` for a
`WordlistError`, else the initial `status = False`.  Returns the
`(name, status, msg)` triple and the resulting module state — note that
the non-raising paths never touch `errored` or the queues. -/
def _setup (cfg : ModuleConfig) (st : ModuleState) (r : SetupResult) :
    (String × Option Bool × String) × ModuleState :=
  match r with
  | SetupResult.ret b => ((cfg.name, b, status_codes b), st)
  | SetupResult.retTuple b msg => ((cfg.name, b, msg), st)
  | SetupResult.raise isWordlist msg =>
      ((cfg.name, if isWordlist then none else some false, msg), set_error_state st)

/-- The `num_incoming_events` property: `qsize()` of the incoming queue
when it is truthy (lazily created as needed), else `0`. -/
def num_incoming_events (st : ModuleState) : Nat :=
  match (lazyInitIncoming st).incoming with
  | QueueState.queue items => items.length
  | _ => 0

/-- The drain loop of `events_waiting`: while the queue is truthy, break
once the batch holds more than `batch_size` events, otherwise
`get_nowait()` (break on `QueueEmpty`), post-check the item, set the
finish flag for an accepted `FINISHED`, and append every other accepted
item (as mutated by the post-check) to the batch.  `filterOf` gives the
outcome of the `filter_event` invocation each post-check performs.
Returns `((batch, finishFlag), remaining queue)`. -/
def eventsWaitingLoop (cfg : ModuleConfig) (scan : ScanState)
    (filterOf : Event → FilterResult) :
    List Event → List Event → Bool → (List Event × Bool) × List Event
  | [], events, finishFlag => ((events, finishFlag), [])
  | e :: rest, events, finishFlag =>
      if events.length > cfg.batch_size then ((events, finishFlag), e :: rest)
      else
        let pc := _event_postcheck cfg scan (filterOf e) e
        if pc.1.1 then
          if e.type == "FINISHED" then
            eventsWaitingLoop cfg scan filterOf rest events true
          else
            eventsWaitingLoop cfg scan filterOf rest (events ++ [pc.2]) finishFlag
        else
          eventsWaitingLoop cfg scan filterOf rest events finishFlag

/-- `events_waiting()` from the source.  `report` is initialised `False`
and never assigned, so it is returned as `false` unconditionally.  A
disabled queue is falsy, so the loop body never runs for it. -/
def events_waiting (cfg : ModuleConfig) (scan : ScanState)
    (filterOf : Event → FilterResult) (st : ModuleState) :
    (List Event × Bool × Bool) × ModuleState :=
  let st1 := lazyInitIncoming st
  match st1.incoming with
  | QueueState.queue items =>
      let r := eventsWaitingLoop cfg scan filterOf items [] false
      ((r.1.1, r.1.2, false), { st1 with incoming := QueueState.queue r.2 })
  | _ => (([], false, false), st1)

/-- `_handle_batch()` from the source, one batch-arm iteration.  Returns
the Python return value (`none` models the bare `return` when
`batch_size <= 1`), the resulting state, and a trace of the user
callbacks invoked: each entry is the callback name paired with the value
of the task counter while that callback runs.  `handle_batch` runs under
`with self._task_counter` (counter incremented on entry, decremented on
exit — TaskCounter semantics modelled from the spec, its class is not
under src/), whereas the `finish()` and `report()` calls in this arm are
wrapped only in `scan.acatch`, not in the task counter.  The
`_timerExpired` argument stands for the wall-clock batch-wait condition;
the source never consults any clock (`_last_submitted_batch` is assigned
in `__init__` and never read or updated), so it is unused. -/
def _handle_batch (cfg : ModuleConfig) (scan : ScanState)
    (filterOf : Event → FilterResult) (_timerExpired : Bool) (st : ModuleState) :
    Option Bool × ModuleState × List (String × Nat) :=
  if cfg.batch_size ≤ 1 then (none, st, [])
  else if num_incoming_events st > 0 then
    let r := events_waiting cfg scan filterOf st
    let st1 := r.2
    if !st1.errored then
      let tr1 := if r.1.1.isEmpty then [] else [("handle_batch", st1.taskCounter + 1)]
      let tr2 :=
        if r.1.2.1 then [("finish", st1.taskCounter)]
        else if r.1.2.2 then [("report", st1.taskCounter)]
        else []
      (some !r.1.1.isEmpty, st1, tr1 ++ tr2)
    else (some false, st1, [])
  else (some false, lazyInitIncoming st, [])

/-- Result of one single-event-arm iteration of `_worker`:
`exited st` when the queue is disabled (the worker returns),
`blocked st` when the `await ...get()` suspends on an empty queue,
`processed st trace` after handling one dequeued event, with the same
callback trace convention as `_handle_batch`. -/
inductive WorkerStep where
  | exited (st : ModuleState)
  | blocked (st : ModuleState)
  | processed (st : ModuleState) (trace : List (String × Nat))
deriving Repr, DecidableEq

/-- One iteration of the single-event arm of `_worker` (the
`batch_size <= 1` else-branch of the loop body): dequeue one event,
post-check it, and on acceptance run `finish()` (for `FINISHED`) or
`handle_event(event)`, each under `scan.acatch` and `with
self._task_counter`. -/
def workerIterationSingle (cfg : ModuleConfig) (scan : ScanState)
    (filterOf : Event → FilterResult) (st : ModuleState) : WorkerStep :=
  let st1 := lazyInitIncoming st
  match st1.incoming with
  | QueueState.disabled => WorkerStep.exited st1
  | QueueState.queue [] => WorkerStep.blocked st1
  | QueueState.queue (e :: rest) =>
      let st2 := { st1 with incoming := QueueState.queue rest }
      let pc := _event_postcheck cfg scan (filterOf e) e
      if pc.1.1 then
        if e.type == "FINISHED" then
          WorkerStep.processed st2 [("finish", st2.taskCounter + 1)]
        else
          WorkerStep.processed st2 [("handle_event", st2.taskCounter + 1)]
      else WorkerStep.processed st2 []
  | QueueState.uninit => WorkerStep.exited st1

/-- `_cleanup()` from the source: a one-shot latch on `_cleanedup`; on
first call every callback in `[self.cleanup] + self.cleanup_callbacks`
runs under `scan.acatch` and `with self._task_counter`.  `extraNames`
are the registered `cleanup_callbacks`; the trace convention matches
`_handle_batch`. -/
def _cleanup (st : ModuleState) (extraNames : List String) :
    ModuleState × List (String × Nat) :=
  if st._cleanedup then (st, [])
  else
    ({ st with _cleanedup := true },
      ("cleanup", st.taskCounter + 1) :: extraNames.map (fun n => (n, st.taskCounter + 1)))

/-- The module state resulting from a worker step. -/
def WorkerStep.state : WorkerStep → ModuleState
  | WorkerStep.exited s => s
  | WorkerStep.blocked s => s
  | WorkerStep.processed s _ => s

/-- One state-mutating runtime operation of the embedded interface, used
to state that `errored` is monotone across the runtime. -/
inductive ModuleOp where
  | opSetErrorState
  | opQueueEvent (cfg : ModuleConfig) (e : Event)
  | opQueueOutgoing (ev : Option Event) (k : EmitKwargs)
  | opDequeueOutgoing
  | opSetup (cfg : ModuleConfig) (r : SetupResult)
  | opEventsWaiting (cfg : ModuleConfig) (scan : ScanState) (f : Event → FilterResult)
  | opHandleBatch (cfg : ModuleConfig) (scan : ScanState) (f : Event → FilterResult) (t : Bool)
  | opWorkerSingle (cfg : ModuleConfig) (scan : ScanState) (f : Event → FilterResult)
  | opCleanup (extraNames : List String)

/-- State transformer of each embedded runtime operation. -/
def applyOp (op : ModuleOp) (st : ModuleState) : ModuleState :=
  match op with
  | ModuleOp.opSetErrorState => set_error_state st
  | ModuleOp.opQueueEvent cfg e => queue_event cfg st e
  | ModuleOp.opQueueOutgoing ev k => queue_outgoing_event st ev k
  | ModuleOp.opDequeueOutgoing =>
      match dequeue_outgoing_event st with
      | DequeueResult.blocked => st
      | DequeueResult.raised st1 _ => st1
      | DequeueResult.ok st1 => st1
  | ModuleOp.opSetup cfg r => (_setup cfg st r).2
  | ModuleOp.opEventsWaiting cfg scan f => (events_waiting cfg scan f st).2
  | ModuleOp.opHandleBatch cfg scan f t => (_handle_batch cfg scan f t st).2.1
  | ModuleOp.opWorkerSingle cfg scan f => (workerIterationSingle cfg scan f st).state
  | ModuleOp.opCleanup extraNames => (_cleanup st extraNames).1

/-! ### Basic preservation lemmas -/

lemma drainQueue_eq_nil (items : List Event) : drainQueue items = [] := by
  induction items with
  | nil => rfl
  | cons a rest ih => simpa [drainQueue] using ih

@[simp] lemma lazyInitIncoming_errored (st : ModuleState) :
    (lazyInitIncoming st).errored = st.errored := by
  unfold lazyInitIncoming; cases st.incoming <;> rfl

@[simp] lemma lazyInitIncoming_taskCounter (st : ModuleState) :
    (lazyInitIncoming st).taskCounter = st.taskCounter := by
  unfold lazyInitIncoming; cases st.incoming <;> rfl

lemma set_error_state_of_not_errored (st : ModuleState) (h : st.errored = false) :
    set_error_state st = { st with errored := true, incoming := QueueState.disabled } := by
  unfold set_error_state lazyInitIncoming ModuleState.setIncomingDisabled
  cases hq : st.incoming <;> simp [h, hq, drainQueue_eq_nil]

lemma set_error_state_of_errored (st : ModuleState) (h : st.errored = true) :
    set_error_state st = st := by
  unfold set_error_state; simp [h]

@[simp] lemma set_error_state_errored (st : ModuleState) :
    (set_error_state st).errored = true := by
  cases h : st.errored
  · simp [set_error_state_of_not_errored st h]
  · simp [set_error_state_of_errored st h, h]

@[simp] lemma queue_event_errored (cfg : ModuleConfig) (st : ModuleState) (e : Event) :
    (queue_event cfg st e).errored = st.errored := by
  unfold queue_event
  dsimp only
  rcases hq : (lazyInitIncoming st).incoming with _ | _ | items
  · simp
  · simp
  · simp
    split <;> simp_all

@[simp] lemma events_waiting_errored (cfg : ModuleConfig) (scan : ScanState)
    (f : Event → FilterResult) (st : ModuleState) :
    ((events_waiting cfg scan f st).2).errored = st.errored := by
  unfold events_waiting
  dsimp only
  rcases hq : (lazyInitIncoming st).incoming with _ | _ | items <;> simp

@[simp] lemma events_waiting_taskCounter (cfg : ModuleConfig) (scan : ScanState)
    (f : Event → FilterResult) (st : ModuleState) :
    ((events_waiting cfg scan f st).2).taskCounter = st.taskCounter := by
  unfold events_waiting
  dsimp only
  rcases hq : (lazyInitIncoming st).incoming with _ | _ | items <;> simp

@[simp] lemma handle_batch_errored (cfg : ModuleConfig) (scan : ScanState)
    (f : Event → FilterResult) (t : Bool) (st : ModuleState) :
    ((_handle_batch cfg scan f t st).2.1).errored = st.errored := by
  unfold _handle_batch
  dsimp only
  split
  · rfl
  split
  · split <;> simp
  · simp

@[simp] lemma handle_batch_taskCounter (cfg : ModuleConfig) (scan : ScanState)
    (f : Event → FilterResult) (t : Bool) (st : ModuleState) :
    ((_handle_batch cfg scan f t st).2.1).taskCounter = st.taskCounter := by
  unfold _handle_batch
  dsimp only
  split
  · rfl
  split
  · split <;> simp
  · simp

@[simp] lemma workerIterationSingle_errored (cfg : ModuleConfig) (scan : ScanState)
    (f : Event → FilterResult) (st : ModuleState) :
    (workerIterationSingle cfg scan f st).state.errored = st.errored := by
  unfold workerIterationSingle
  dsimp only
  rcases hq : (lazyInitIncoming st).incoming with _ | _ | items
  · simp [WorkerStep.state]
  · simp [WorkerStep.state]
  · cases items with
    | nil => simp [WorkerStep.state]
    | cons e rest =>
        by_cases hpc : (_event_postcheck cfg scan (f e) e).1.1 = true <;>
          by_cases hty : e.type = "FINISHED" <;>
          simp [WorkerStep.state, hpc, hty]

lemma errored_monotone (op : ModuleOp) (st : ModuleState) (h : st.errored = true) :
    (applyOp op st).errored = true := by
  cases op with
  | opSetErrorState => simp [applyOp]
  | opQueueEvent cfg e => simp [applyOp, h]
  | opQueueOutgoing ev k => simp [applyOp, queue_outgoing_event, h]
  | opDequeueOutgoing =>
      simp only [applyOp]
      unfold dequeue_outgoing_event
      cases st.outgoing <;> simp [h]
  | opSetup cfg r =>
      cases r <;> simp [applyOp, _setup, set_error_state_of_errored st h, h]
  | opEventsWaiting cfg scan f => simp [applyOp, h]
  | opHandleBatch cfg scan f t => simp [applyOp, h]
  | opWorkerSingle cfg scan f => simp [applyOp, h]
  | opCleanup extraNames =>
      simp only [applyOp]
      unfold _cleanup
      split <;> simp [h]

/-! ### Concrete instances used by witnesses and counterexamples -/

/-- A generic passive scan-module configuration. -/
def cfg0 : ModuleConfig :=
  { name := "base", watched_events := ["DNS_NAME"], flags := ["passive"],
    target_only := false, in_scope_only := false,
    scope_distance_modifier := some 0, batch_size := 1, mtype := "scan" }

/-- A fresh module state (as after `__init__`: queue not yet created). -/
def st0 : ModuleState :=
  { errored := false, incoming := QueueState.uninit, outgoing := [],
    taskCounter := 0, eventReceivedNotifies := 0, eventDequeuedNotifies := 0,
    _cleanedup := false }

/-- A plain in-scope event. -/
def ev0 : Event :=
  { type := "DNS_NAME", scope_distance := 0, tags := [], sourceType := "",
    module := "host", _stats_recorded := false }

/-! ### C1 — setup protocol -/

/-- C1 (amended): `_setup` maps a returned `true` to success, `false` to
hard-fail and `none` to soft-fail; a thrown `WordlistError` yields status
`none` (soft-fail) and any other thrown exception status `false`
(hard-fail), and on every thrown-exception outcome the errored flag is
set and the incoming queue is disabled.  Return-based failures (`false`
or `none` returned by `setup()`) do not touch the errored flag or the
queue. -/
theorem C1_setup_protocol (cfg : ModuleConfig) (st : ModuleState) (msg : String)
    (h : st.errored = false) :
    (∀ b : Option Bool,
      _setup cfg st (SetupResult.ret b) = ((cfg.name, b, status_codes b), st)) ∧
    status_codes (some true) = "success" ∧
    status_codes (some false) = "hard-fail" ∧
    status_codes none = "soft-fail" ∧
    (_setup cfg st (SetupResult.raise true msg)).1.2.1 = none ∧
    (_setup cfg st (SetupResult.raise false msg)).1.2.1 = some false ∧
    ((_setup cfg st (SetupResult.raise true msg)).2).errored = true ∧
    ((_setup cfg st (SetupResult.raise true msg)).2).incoming = QueueState.disabled ∧
    ((_setup cfg st (SetupResult.raise false msg)).2).errored = true ∧
    ((_setup cfg st (SetupResult.raise false msg)).2).incoming = QueueState.disabled := by
  refine ⟨fun b => rfl, rfl, rfl, rfl, rfl, rfl, ?_, ?_, ?_, ?_⟩ <;>
    simp [_setup, set_error_state_of_not_errored st h]

/-- C1 witness: at a concrete input, a raising non-wordlist `setup()`
leaves the module errored. -/
theorem C1_setup_protocol_witness :
    ((_setup cfg0 st0 (SetupResult.raise false "oops")).2).errored = true :=
  (C1_setup_protocol cfg0 st0 "oops" rfl).2.2.2.2.2.2.2.2.1

/-- C1 counterexample: a `setup()` that returns `False` yields hard-fail
status, yet `_setup` leaves `errored` false and the incoming queue
enabled — refuting the claim that every failure outcome sets the errored
flag and disables the queue. -/
theorem C1_counterexample :
    (_setup cfg0 st0 (SetupResult.ret (some false))).1.2.1 = some false ∧
    ((_setup cfg0 st0 (SetupResult.ret (some false))).2).errored = false ∧
    ((_setup cfg0 st0 (SetupResult.ret (some false))).2).incoming ≠ QueueState.disabled := by
  decide

/-! ### C2 — quarantine idempotence -/

/-- C2: `set_error_state` is idempotent — on the first call `errored`
becomes true (and, `errored` being monotone under every embedded runtime
operation, never reverts), the incoming queue is synchronously emptied
(`drainQueue`) and replaced by the disabled sentinel; any later call
leaves the state unchanged; and after quarantine `queue_event` returns
the state unchanged — enqueuing nothing — and, being a total function,
without raising. -/
theorem C2_quarantine (cfg : ModuleConfig) (st : ModuleState) (e : Event)
    (items : List Event) (h : st.errored = false) :
    (set_error_state st).errored = true ∧
    (set_error_state st).incoming = QueueState.disabled ∧
    drainQueue items = [] ∧
    (∀ st2 : ModuleState, st2.errored = true → set_error_state st2 = st2) ∧
    set_error_state (set_error_state st) = set_error_state st ∧
    queue_event cfg (set_error_state st) e = set_error_state st ∧
    (∀ op : ModuleOp, ∀ st2 : ModuleState, st2.errored = true →
      (applyOp op st2).errored = true) := by
  refine ⟨set_error_state_errored st, ?_, drainQueue_eq_nil items,
    fun st2 h2 => set_error_state_of_errored st2 h2, ?_, ?_,
    fun op st2 h2 => errored_monotone op st2 h2⟩
  · simp [set_error_state_of_not_errored st h]
  · exact set_error_state_of_errored _ (set_error_state_errored st)
  · simp [set_error_state_of_not_errored st h, queue_event, lazyInitIncoming]

/-- C2 witness: at a concrete input, quarantining a fresh module disables
its queue and a subsequent `queue_event` is a no-op. -/
theorem C2_quarantine_witness :
    (set_error_state st0).incoming = QueueState.disabled ∧
    queue_event cfg0 (set_error_state st0) ev0 = set_error_state st0 :=
  ⟨(C2_quarantine cfg0 st0 ev0 [] rfl).2.1,
   (C2_quarantine cfg0 st0 ev0 [] rfl).2.2.2.2.2.1⟩

/-! ### C6 — scope gating -/

lemma postcheck_false_of_scopeReject (cfg : ModuleConfig) (scan : ScanState)
    (fr : FilterResult) (e : Event)
    (hfin : e.type ≠ "FINISHED")
    (hwl : ¬ (("active" ∈ cfg.flags ∧ "target" ∈ e.tags) ∧ e ∉ scan.whitelist))
    (hs : (scopeReject cfg scan e).isSome = true) :
    ((_event_postcheck cfg scan fr e).1).1 = false := by
  unfold _event_postcheck
  rcases hsome : scopeReject cfg scan e with _ | reason
  · rw [hsome] at hs; simp at hs
  · simp [hfin, hwl, hsome]

/-- C6: for a non-`FINISHED` event reaching a non-output module past the
active/whitelist check, post-check rejects when `in_scope_only` holds and
the scope distance is positive; and, when `scope_distance_modifier` is
set, when the scope distance is negative or exceeds
`max_scope_distance`, which is `0` for `in_scope_only`/`target_only`
modules and `max 0 (scan.scope_search_distance + modifier)` otherwise. -/
theorem C6_scope_gating (cfg : ModuleConfig) (scan : ScanState) (fr : FilterResult)
    (e : Event)
    (hfin : e.type ≠ "FINISHED")
    (hout : cfg.mtype ≠ "output")
    (hwl : ¬ (("active" ∈ cfg.flags ∧ "target" ∈ e.tags) ∧ e ∉ scan.whitelist)) :
    (cfg.in_scope_only = true → e.scope_distance > 0 →
      ((_event_postcheck cfg scan fr e).1).1 = false) ∧
    (∀ m : Int, cfg.scope_distance_modifier = some m →
      (e.scope_distance < 0 ∨ e.scope_distance > max_scope_distance cfg scan) →
      ((_event_postcheck cfg scan fr e).1).1 = false) ∧
    (∀ m : Int, cfg.scope_distance_modifier = some m →
      max_scope_distance cfg scan =
        (if cfg.in_scope_only || cfg.target_only then 0
         else max 0 (scan.scope_search_distance + m))) := by
  refine ⟨?_, ?_, ?_⟩
  · intro hiso hsd
    refine postcheck_false_of_scopeReject cfg scan fr e hfin hwl ?_
    unfold scopeReject
    simp [hout, hiso, hsd]
  · intro m hm hbad
    refine postcheck_false_of_scopeReject cfg scan fr e hfin hwl ?_
    unfold scopeReject
    by_cases hiso : cfg.in_scope_only && decide (e.scope_distance > 0)
    · simp [hout, hiso]
    · rcases hbad with hneg | hbig
      · simp [hout, hiso, hm, hneg]
      · have hnn : ¬ e.scope_distance < 0 := by
          intro hlt
          have h0 : (0 : Int) ≤ max_scope_distance cfg scan := by
            unfold max_scope_distance
            split
            · exact le_refl 0
            · rw [hm]; exact le_max_left 0 _
          omega
        simp [hout, hiso, hm, hnn, hbig]
  · intro m hm
    unfold max_scope_distance
    rw [hm]

/-- C6 witness configuration: an in-scope-only module. -/
def cfg6 : ModuleConfig :=
  { name := "nuclei", watched_events := ["DNS_NAME"], flags := ["active"],
    target_only := false, in_scope_only := true,
    scope_distance_modifier := some 0, batch_size := 1, mtype := "scan" }

/-- C6 witness scan state. -/
def scan6 : ScanState := { scope_search_distance := 1, whitelist := [] }

/-- C6 witness event: scope distance 2, not a target. -/
def ev6 : Event :=
  { type := "DNS_NAME", scope_distance := 2, tags := [], sourceType := "",
    module := "host", _stats_recorded := false }

/-- C6 witness: at a concrete input, an in-scope-only module rejects a
distance-2 event at post-check. -/
theorem C6_scope_gating_witness :
    ((_event_postcheck cfg6 scan6 (FilterResult.ret true) ev6).1).1 = false :=
  (C6_scope_gating cfg6 scan6 (FilterResult.ret true) ev6 (by decide) (by decide)
    (by decide)).1 rfl (by decide)

/-! ### C7 — CIDR de-duplication -/

/-- C7: an `IP_ADDRESS` event speculated from an `IP_RANGE` source by the
`speculate` module is pre-check-rejected with reason "module consumes IP
ranges directly" by every non-errored module other than `speculate` that
watches both `IP_RANGE` and `IP_ADDRESS` (and does not reject the event
by an earlier pre-check rule — here, the `target_only` rule, the only
earlier rule such an event could trip). -/
theorem C7_cidr_dedup (cfg : ModuleConfig) (errored : Bool) (e : Event)
    (h1 : e.type = "IP_ADDRESS") (h2 : e.sourceType = "IP_RANGE")
    (h3 : e.module = "speculate") (h4 : cfg.name ≠ "speculate")
    (h5 : errored = false)
    (h6 : "IP_RANGE" ∈ cfg.watched_events)
    (h7 : "IP_ADDRESS" ∈ cfg.watched_events)
    (h8 : cfg.target_only = true → "target" ∈ e.tags) :
    _event_precheck cfg errored e = (false, "module consumes IP ranges directly") := by
  have hsw : pyStartsWith "IP_ADDRESS" "URL" = false := by decide
  unfold _event_precheck
  rw [h1, h2, h3]
  by_cases ht : cfg.target_only
  · simp [h4, h5, h6, h7, hsw, ht, h8 ht]
  · simp [h4, h5, h6, h7, hsw, ht]

/-- C7 witness configuration: a port scanner watching both ranges and
addresses. -/
def cfg7 : ModuleConfig :=
  { name := "nmap", watched_events := ["IP_RANGE", "IP_ADDRESS"], flags := ["active"],
    target_only := false, in_scope_only := false,
    scope_distance_modifier := some 0, batch_size := 1, mtype := "scan" }

/-- C7 witness event: an address speculated out of a CIDR. -/
def ev7 : Event :=
  { type := "IP_ADDRESS", scope_distance := 0, tags := [], sourceType := "IP_RANGE",
    module := "speculate", _stats_recorded := false }

/-- C7 witness: at a concrete input, the speculated address is rejected. -/
theorem C7_cidr_dedup_witness :
    _event_precheck cfg7 false ev7 = (false, "module consumes IP ranges directly") :=
  C7_cidr_dedup cfg7 false ev7 rfl rfl rfl (by decide) rfl (by decide) (by decide)
    (fun h => by simp [cfg7] at h)

/-! ### C8 — outgoing drain raises (code bug) -/

/-- C8 (code behaviour at the failing input): on a non-empty outgoing
queue, `dequeue_outgoing_event` removes exactly one item but then raises
— the synchronous `with self._event_dequeued:` is invalid on an
`asyncio.Condition` — so it does not complete and never notifies
`event_dequeued` (the notify count of the resulting state is
unchanged). -/
theorem C8_dequeue_raises (st : ModuleState) (item : Option Event × EmitKwargs)
    (rest : List (Option Event × EmitKwargs)) (h : st.outgoing = item :: rest) :
    dequeue_outgoing_event st =
      DequeueResult.raised { st with outgoing := rest }
        "TypeError: asyncio.Condition does not support the synchronous context manager protocol" ∧
    ({ st with outgoing := rest } : ModuleState).eventDequeuedNotifies =
      st.eventDequeuedNotifies := by
  unfold dequeue_outgoing_event
  rw [h]
  exact ⟨rfl, rfl⟩

/-- C8 witness state: one pending outgoing item. -/
def st8 : ModuleState :=
  { errored := false, incoming := QueueState.uninit,
    outgoing := [(some ev0, { on_success_callback := none, abort_if := none, quick := none })],
    taskCounter := 0, eventReceivedNotifies := 0, eventDequeuedNotifies := 0,
    _cleanedup := false }

/-- C8 witness: at a concrete input, the drain call raises instead of
completing and notifying. -/
theorem C8_dequeue_raises_witness :
    dequeue_outgoing_event st8 =
      DequeueResult.raised { st8 with outgoing := [] }
        "TypeError: asyncio.Condition does not support the synchronous context manager protocol" :=
  (C8_dequeue_raises st8
    (some ev0, { on_success_callback := none, abort_if := none, quick := none }) [] rfl).1

/-! ### C9 — event-minting errors -/

/-- C9 (amended): `make_event` re-raises a `ValidationError` exactly when
`raise_error` is set and otherwise returns nothing; on success a missing
module attribution is set to the minting module.  However, an
`emit_event` call whose minting fails (without `raise_error`) still
places an item — the pair `(None, emit_kwargs)` — on the outgoing queue:
the source passes `make_event`'s `None` straight to
`queue_outgoing_event`. -/
theorem C9_minting (cfg : ModuleConfig) (st : ModuleState) (k : EmitKwargs)
    (e : Event) (msg : String) :
    make_event cfg true (MintResult.validationError msg) = Except.error msg ∧
    make_event cfg false (MintResult.validationError msg) = Except.ok none ∧
    emit_event cfg st false (MintResult.validationError msg) k =
      Except.ok { st with outgoing := st.outgoing ++ [(none, k)] } ∧
    (e.module = "" → make_event cfg false (MintResult.ok e) =
      Except.ok (some { e with module := cfg.name })) ∧
    (e.module ≠ "" → make_event cfg false (MintResult.ok e) = Except.ok (some e)) := by
  refine ⟨rfl, rfl, rfl, ?_, ?_⟩ <;> intro h <;> simp [make_event, h]

/-- C9 empty emit options, used by the witness and the counterexample. -/
def k9 : EmitKwargs := { on_success_callback := none, abort_if := none, quick := none }

/-- C9 witness: at a concrete input, an unattributed minted event is
attributed to the minting module. -/
theorem C9_minting_witness :
    make_event cfg0 false (MintResult.ok ev0) = Except.ok (some ev0) :=
  (C9_minting cfg0 st0 k9 ev0 "m").2.2.2.2 (by decide)

/-- C9 counterexample: a failed minting inside `emit_event` (with
`raise_error` unset) places one item on the previously empty outgoing
queue, refuting "an emit_event call whose minting fails places nothing
on the outgoing queue". -/
theorem C9_counterexample :
    emit_event cfg0 st0 false (MintResult.validationError "invalid event") k9 =
      Except.ok { st0 with outgoing := [(none, k9)] } ∧
    ({ st0 with outgoing := [(none, k9)] } : ModuleState).outgoing.length = 1 ∧
    st0.outgoing.length = 0 :=
  ⟨rfl, rfl, rfl⟩

/-! ### C10 — crashing filter accepts -/

/-- C10: for a non-`FINISHED` event past the whitelist and scope checks,
a `filter_event` that raises (its exception suppressed by `scan.acatch`)
skips the rejection branch, and `_event_postcheck` returns acceptance
`(True, "")`. -/
theorem C10_crashing_filter_accepts (cfg : ModuleConfig) (scan : ScanState) (e : Event)
    (hfin : e.type ≠ "FINISHED")
    (hwl : ¬ (("active" ∈ cfg.flags ∧ "target" ∈ e.tags) ∧ e ∉ scan.whitelist))
    (hs : scopeReject cfg scan e = none) :
    ((_event_postcheck cfg scan FilterResult.raise e).1) = (true, "") := by
  unfold _event_postcheck
  simp [hfin, hwl, hs, filterReject]

/-- C10 witness: at a concrete input, a raising filter lets the event
through. -/
theorem C10_crashing_filter_accepts_witness :
    ((_event_postcheck cfg0 scan6 FilterResult.raise ev0).1) = (true, "") :=
  C10_crashing_filter_accepts cfg0 scan6 ev0 (by decide) (by decide) (by decide)

/-! ### Lemmas about `_event_postcheck` and the batch-assembly loop -/

/-- An accepted post-check returns exactly `(true, "")`; every rejecting
branch returns `false`. -/
lemma postcheck_fst (cfg : ModuleConfig) (scan : ScanState) (fr : FilterResult)
    (e : Event) :
    (_event_postcheck cfg scan fr e).1 = (true, "") ∨
    ((_event_postcheck cfg scan fr e).1).1 = false := by
  unfold _event_postcheck
  dsimp only
  split
  · exact Or.inl rfl
  split
  · exact Or.inr rfl
  split
  · exact Or.inr rfl
  split
  · exact Or.inr rfl
  · exact Or.inl rfl

/-- Post-check never changes the event type (the only mutation is the
output-module stats latch). -/
lemma postcheck_type (cfg : ModuleConfig) (scan : ScanState) (fr : FilterResult)
    (e : Event) : ((_event_postcheck cfg scan fr e).2).type = e.type := by
  unfold _event_postcheck
  dsimp only
  split
  · rfl
  split
  · rfl
  split
  · rfl
  split
  · rfl
  · split <;> rfl

/-- Batch-length invariant of the assembly loop: starting from an
accumulator within the bound, the assembled batch stays within
`batch_size + 1`. -/
lemma eventsWaitingLoop_length (cfg : ModuleConfig) (scan : ScanState)
    (f : Event → FilterResult) (queue : List Event) :
    ∀ acc : List Event, ∀ fin : Bool, acc.length ≤ cfg.batch_size + 1 →
      ((eventsWaitingLoop cfg scan f queue acc fin).1.1).length ≤ cfg.batch_size + 1 := by
  induction queue with
  | nil =>
      intro acc fin h
      simpa [eventsWaitingLoop] using h
  | cons e rest ih =>
      intro acc fin h
      unfold eventsWaitingLoop
      dsimp only
      by_cases hlen : acc.length > cfg.batch_size
      · simpa [hlen] using h
      · rw [if_neg hlen]
        by_cases hpc : ((_event_postcheck cfg scan (f e) e).1).1 = true
        · by_cases hty : (e.type == "FINISHED") = true
          · rw [if_pos hpc, if_pos hty]
            exact ih acc true h
          · rw [if_pos hpc, if_neg hty]
            refine ih _ fin ?_
            simp only [List.length_append, List.length_singleton]
            omega
        · rw [if_neg hpc]
          exact ih acc fin h

/-- Batch-membership invariant of the assembly loop: every assembled
event either was already in the accumulator or is the post-check output
of a non-`FINISHED` drained item whose post-check accepted it. -/
lemma eventsWaitingLoop_mem (cfg : ModuleConfig) (scan : ScanState)
    (f : Event → FilterResult) (queue : List Event) :
    ∀ acc : List Event, ∀ fin : Bool, ∀ x : Event,
      x ∈ (eventsWaitingLoop cfg scan f queue acc fin).1.1 →
      x ∈ acc ∨ ∃ e0, e0 ∈ queue ∧ e0.type ≠ "FINISHED" ∧
        _event_postcheck cfg scan (f e0) e0 = ((true, ""), x) := by
  induction queue with
  | nil =>
      intro acc fin x hx
      simp only [eventsWaitingLoop] at hx
      exact Or.inl hx
  | cons e rest ih =>
      intro acc fin x hx
      unfold eventsWaitingLoop at hx
      dsimp only at hx
      by_cases hlen : acc.length > cfg.batch_size
      · rw [if_pos hlen] at hx
        exact Or.inl hx
      · rw [if_neg hlen] at hx
        by_cases hpc : ((_event_postcheck cfg scan (f e) e).1).1 = true
        · by_cases hty : (e.type == "FINISHED") = true
          · rw [if_pos hpc, if_pos hty] at hx
            rcases ih acc true x hx with h | ⟨e0, he0, hty0, hpc0⟩
            · exact Or.inl h
            · exact Or.inr ⟨e0, List.mem_cons_of_mem e he0, hty0, hpc0⟩
          · rw [if_pos hpc, if_neg hty] at hx
            rcases ih _ fin x hx with h | ⟨e0, he0, hty0, hpc0⟩
            · rcases List.mem_append.mp h with h | h
              · exact Or.inl h
              · have hx2 : x = (_event_postcheck cfg scan (f e) e).2 := by
                  simpa using h
                have hfst : (_event_postcheck cfg scan (f e) e).1 = (true, "") := by
                  rcases postcheck_fst cfg scan (f e) e with hgood | hbad
                  · exact hgood
                  · rw [hpc] at hbad; exact absurd hbad (by simp)
                refine Or.inr ⟨e, List.mem_cons_self e rest, ?_, ?_⟩
                · intro hcontra
                  exact hty (by simp [hcontra])
                · exact Prod.ext hfst hx2.symm
            · exact Or.inr ⟨e0, List.mem_cons_of_mem e he0, hty0, hpc0⟩
        · rw [if_neg hpc] at hx
          rcases ih acc fin x hx with h | ⟨e0, he0, hty0, hpc0⟩
          · exact Or.inl h
          · exact Or.inr ⟨e0, List.mem_cons_of_mem e he0, hty0, hpc0⟩

/-- `lazyInitIncoming` leaves a live queue alone. -/
lemma lazyInitIncoming_of_queue (st : ModuleState) (items : List Event)
    (hq : st.incoming = QueueState.queue items) : lazyInitIncoming st = st := by
  unfold lazyInitIncoming
  rw [hq]

/-! ### Trace characterisation of `_handle_batch` -/

/-- In the batch arm with work pending and no error, the callback trace
of `_handle_batch` is the `handle_batch` entry (under the task counter)
when the batch is non-empty, followed by the `finish`/`report` entry
(not under the task counter) as flagged by `events_waiting`. -/
lemma handle_batch_trace (cfg : ModuleConfig) (scan : ScanState)
    (f : Event → FilterResult) (t : Bool) (st : ModuleState)
    (hb : 1 < cfg.batch_size) (hpos : num_incoming_events st > 0)
    (herr : st.errored = false) :
    (_handle_batch cfg scan f t st).2.2 =
      (if (events_waiting cfg scan f st).1.1.isEmpty then []
       else [("handle_batch", st.taskCounter + 1)]) ++
      (if (events_waiting cfg scan f st).1.2.1 then [("finish", st.taskCounter)]
       else if (events_waiting cfg scan f st).1.2.2 then [("report", st.taskCounter)]
       else []) := by
  unfold _handle_batch
  dsimp only
  rw [if_neg (by omega), if_pos hpos]
  simp [herr]

/-- With `batch_size <= 1` the batch arm returns at once: empty trace. -/
lemma handle_batch_trace_small (cfg : ModuleConfig) (scan : ScanState)
    (f : Event → FilterResult) (t : Bool) (st : ModuleState)
    (hb : cfg.batch_size ≤ 1) :
    (_handle_batch cfg scan f t st).2.2 = [] := by
  unfold _handle_batch
  dsimp only
  rw [if_pos hb]

/-- With no incoming events the batch arm invokes nothing: empty trace. -/
lemma handle_batch_trace_nopos (cfg : ModuleConfig) (scan : ScanState)
    (f : Event → FilterResult) (t : Bool) (st : ModuleState)
    (hb : 1 < cfg.batch_size) (h : ¬ num_incoming_events st > 0) :
    (_handle_batch cfg scan f t st).2.2 = [] := by
  unfold _handle_batch
  dsimp only
  rw [if_neg (by omega), if_neg h]

/-- An errored module invokes nothing in the batch arm: empty trace. -/
lemma handle_batch_trace_errored (cfg : ModuleConfig) (scan : ScanState)
    (f : Event → FilterResult) (t : Bool) (st : ModuleState)
    (hb : 1 < cfg.batch_size) (hpos : num_incoming_events st > 0)
    (herr : st.errored = true) :
    (_handle_batch cfg scan f t st).2.2 = [] := by
  unfold _handle_batch
  dsimp only
  rw [if_neg (by omega), if_pos hpos]
  simp [herr]

/-- The batch of `events_waiting` is computed by the assembly loop. -/
lemma events_waiting_of_queue (cfg : ModuleConfig) (scan : ScanState)
    (f : Event → FilterResult) (st : ModuleState) (items : List Event)
    (hq : st.incoming = QueueState.queue items) :
    (events_waiting cfg scan f st).1 =
      ((eventsWaitingLoop cfg scan f items [] false).1.1,
       (eventsWaitingLoop cfg scan f items [] false).1.2, false) := by
  unfold events_waiting
  dsimp only
  rw [lazyInitIncoming_of_queue st items hq, hq]

/-! ### C4 — batch assembly invariant -/

/-- C4: every batch assembled by `events_waiting` holds at most
`batch_size + 1` events, each of them the accepted post-check output of a
drained item, none of type `FINISHED`; and `_handle_batch` invokes
`handle_batch` in that iteration exactly when the batch is non-empty and
the module is not errored. -/
theorem C4_batch_assembly (cfg : ModuleConfig) (scan : ScanState)
    (f : Event → FilterResult) (t : Bool) (st : ModuleState) (items : List Event)
    (hb : 1 < cfg.batch_size)
    (hq : st.incoming = QueueState.queue items) :
    ((events_waiting cfg scan f st).1.1).length ≤ cfg.batch_size + 1 ∧
    (∀ x ∈ (events_waiting cfg scan f st).1.1, x.type ≠ "FINISHED") ∧
    (∀ x ∈ (events_waiting cfg scan f st).1.1, ∃ e0, e0 ∈ items ∧
      _event_postcheck cfg scan (f e0) e0 = ((true, ""), x)) ∧
    ((∃ n : Nat, ("handle_batch", n) ∈ (_handle_batch cfg scan f t st).2.2) ↔
      ((events_waiting cfg scan f st).1.1 ≠ [] ∧ st.errored = false)) := by
  have hew := events_waiting_of_queue cfg scan f st items hq
  have hL : (events_waiting cfg scan f st).1.1 =
      (eventsWaitingLoop cfg scan f items [] false).1.1 := by rw [hew]
  have hmem : ∀ x ∈ (events_waiting cfg scan f st).1.1, ∃ e0, e0 ∈ items ∧
      e0.type ≠ "FINISHED" ∧ _event_postcheck cfg scan (f e0) e0 = ((true, ""), x) := by
    intro x hx
    rw [hL] at hx
    rcases eventsWaitingLoop_mem cfg scan f items [] false x hx with h | h
    · simp at h
    · exact h
  have hnum : num_incoming_events st = items.length := by
    unfold num_incoming_events
    rw [lazyInitIncoming_of_queue st items hq, hq]
  refine ⟨?_, ?_, ?_, ?_⟩
  · rw [hL]
    exact eventsWaitingLoop_length cfg scan f items [] false (by simp)
  · intro x hx
    rcases hmem x hx with ⟨e0, _, hty0, hpc0⟩
    have hty : x.type = e0.type := by
      have h2 : (_event_postcheck cfg scan (f e0) e0).2 = x := by rw [hpc0]
      rw [← h2]
      exact postcheck_type cfg scan (f e0) e0
    rw [hty]
    exact hty0
  · intro x hx
    rcases hmem x hx with ⟨e0, he0, _, hpc0⟩
    exact ⟨e0, he0, hpc0⟩
  · rcases hitems : items with _ | ⟨i, irest⟩
    · subst hitems
      have hLnil : (events_waiting cfg scan f st).1.1 = [] := by
        rw [hL]; rfl
      have htr : (_handle_batch cfg scan f t st).2.2 = [] := by
        refine handle_batch_trace_nopos cfg scan f t st hb ?_
        rw [hnum]; simp
      constructor
      · rintro ⟨n, hn⟩
        rw [htr] at hn
        simp at hn
      · rintro ⟨hne, _⟩
        exact absurd hLnil hne
    · subst hitems
      have hpos : num_incoming_events st > 0 := by rw [hnum]; simp
      rcases herr : st.errored with _ | _
      · have htr := handle_batch_trace cfg scan f t st hb hpos herr
        by_cases hLe : (events_waiting cfg scan f st).1.1.isEmpty = true
        · have hLnil : (events_waiting cfg scan f st).1.1 = [] := by
            simpa using hLe
          constructor
          · rintro ⟨n, hn⟩
            rw [htr, if_pos hLe] at hn
            simp only [List.nil_append] at hn
            split at hn <;> (try split at hn) <;> simp_all
          · rintro ⟨hne, _⟩
            exact absurd hLnil hne
        · constructor
          · intro _
            exact ⟨fun hcontra => hLe (by simp [hcontra]), rfl⟩
          · intro _
            refine ⟨st.taskCounter + 1, ?_⟩
            rw [htr, if_neg hLe]
            simp
      · have htr := handle_batch_trace_errored cfg scan f t st hb hpos herr
        constructor
        · rintro ⟨n, hn⟩
          rw [htr] at hn
          simp at hn
        · rintro ⟨_, hfe⟩
          simp at hfe

/-- C4 witness configuration: a batching module. -/
def cfg5 : ModuleConfig :=
  { name := "massdns", watched_events := ["DNS_NAME"], flags := ["passive"],
    target_only := false, in_scope_only := false,
    scope_distance_modifier := some 0, batch_size := 3, mtype := "scan" }

/-- The always-true custom filter. -/
def filterTrue : Event → FilterResult := fun _ => FilterResult.ret true

/-- The `FINISHED` sentinel event. -/
def evFin : Event :=
  { type := "FINISHED", scope_distance := 0, tags := [], sourceType := "",
    module := "TARGET", _stats_recorded := false }

/-- C4 witness state: one plain event and a `FINISHED` sentinel queued. -/
def st4 : ModuleState :=
  { errored := false, incoming := QueueState.queue [ev0, evFin], outgoing := [],
    taskCounter := 0, eventReceivedNotifies := 0, eventDequeuedNotifies := 0,
    _cleanedup := false }

/-- C4 witness: at a concrete input, the assembled batch respects the
size bound and `handle_batch` is invoked. -/
theorem C4_batch_assembly_witness :
    ((events_waiting cfg5 scan6 filterTrue st4).1.1).length ≤ cfg5.batch_size + 1 ∧
    (∃ n : Nat, ("handle_batch", n) ∈ (_handle_batch cfg5 scan6 filterTrue false st4).2.2) :=
  ⟨(C4_batch_assembly cfg5 scan6 filterTrue false st4 [ev0, evFin] (by decide) rfl).1,
   (C4_batch_assembly cfg5 scan6 filterTrue false st4 [ev0, evFin] (by decide) rfl).2.2.2.mpr
     ⟨by decide, rfl⟩⟩

/-! ### C5 — batch-arm finish/report trigger -/

/-- The report flag of `events_waiting` is always false. -/
lemma events_waiting_report_false (cfg : ModuleConfig) (scan : ScanState)
    (f : Event → FilterResult) (st : ModuleState) :
    (events_waiting cfg scan f st).1.2.2 = false := by
  unfold events_waiting
  dsimp only
  rcases hq : (lazyInitIncoming st).incoming with _ | _ | items <;> simp

/-- C5 (amended): on a batch-arm iteration with work pending and no
error, if a `FINISHED` item was observed then `finish()` is invoked;
`report()`, however, is never invoked from the batch arm under any
circumstances — `events_waiting` initialises its report flag to `False`
and never sets it (the batch-wait timer is never consulted; the source
assigns `_last_submitted_batch` once and never reads it). -/
theorem C5_finish_report_trigger (cfg : ModuleConfig) (scan : ScanState)
    (f : Event → FilterResult) (t : Bool) (st : ModuleState) :
    ((events_waiting cfg scan f st).1.2.2 = false) ∧
    (∀ n : Nat, ("report", n) ∉ (_handle_batch cfg scan f t st).2.2) ∧
    (1 < cfg.batch_size → num_incoming_events st > 0 → st.errored = false →
      (events_waiting cfg scan f st).1.2.1 = true →
      ("finish", st.taskCounter) ∈ (_handle_batch cfg scan f t st).2.2) := by
  have hrep := events_waiting_report_false cfg scan f st
  refine ⟨hrep, ?_, ?_⟩
  · intro n hn
    by_cases hb : 1 < cfg.batch_size
    · by_cases hpos : num_incoming_events st > 0
      · rcases herr : st.errored with _ | _
        · rw [handle_batch_trace cfg scan f t st hb hpos herr] at hn
          rcases List.mem_append.mp hn with h | h
          · split at h <;> simp_all
          · split at h
            · simp_all
            · split at h <;> simp_all
        · rw [handle_batch_trace_errored cfg scan f t st hb hpos herr] at hn
          simp at hn
      · rw [handle_batch_trace_nopos cfg scan f t st hb hpos] at hn
        simp at hn
    · rw [handle_batch_trace_small cfg scan f t st (by omega)] at hn
      simp at hn
  · intro hb hpos herr hfin
    rw [handle_batch_trace cfg scan f t st hb hpos herr]
    simp [hfin]

/-- The always-rejecting custom filter. -/
def filterFalse : Event → FilterResult := fun _ => FilterResult.ret false

/-- C5 counterexample state: one queued event, counter 0. -/
def st5 : ModuleState :=
  { errored := false, incoming := QueueState.queue [ev0], outgoing := [],
    taskCounter := 0, eventReceivedNotifies := 0, eventDequeuedNotifies := 0,
    _cleanedup := false }

/-- C5 counterexample: a batch-arm iteration whose assembled batch is
empty (the drained event is rejected by the custom filter) with the
batch-wait timer expired (the `true` argument) still invokes no callback
at all — in particular no `report()` — refuting the claim that an empty
batch after an expired batch-wait timer triggers `report()`. -/
theorem C5_counterexample :
    (events_waiting cfg5 scan6 filterFalse st5).1.1 = [] ∧
    (_handle_batch cfg5 scan6 filterFalse true st5).2.2 = [] := by
  decide

/-- C5 witness: at a concrete input with a queued `FINISHED` sentinel,
`finish()` is invoked. -/
theorem C5_finish_report_trigger_witness :
    ("finish", st4.taskCounter) ∈ (_handle_batch cfg5 scan6 filterTrue false st4).2.2 :=
  (C5_finish_report_trigger cfg5 scan6 filterTrue false st4).2.2 (by decide) (by decide)
    rfl (by decide)

/-! ### C3 — task-counter scoping -/

@[simp] lemma workerIterationSingle_taskCounter (cfg : ModuleConfig) (scan : ScanState)
    (f : Event → FilterResult) (st : ModuleState) :
    (workerIterationSingle cfg scan f st).state.taskCounter = st.taskCounter := by
  unfold workerIterationSingle
  dsimp only
  rcases hq : (lazyInitIncoming st).incoming with _ | _ | items
  · simp [WorkerStep.state]
  · simp [WorkerStep.state]
  · cases items with
    | nil => simp [WorkerStep.state]
    | cons e rest =>
        by_cases hpc : (_event_postcheck cfg scan (f e) e).1.1 = true <;>
          by_cases hty : e.type = "FINISHED" <;>
          simp [WorkerStep.state, hpc, hty]

/-- Every callback entry of a single-event-arm worker iteration runs
with the task counter incremented. -/
lemma workerIterationSingle_trace (cfg : ModuleConfig) (scan : ScanState)
    (f : Event → FilterResult) (st st2 : ModuleState) (tr : List (String × Nat))
    (h : workerIterationSingle cfg scan f st = WorkerStep.processed st2 tr) :
    ∀ q ∈ tr, q.2 = st.taskCounter + 1 := by
  unfold workerIterationSingle at h
  dsimp only at h
  split at h
  · simp at h
  · simp at h
  · split at h
    · split at h
      · injection h with h1 h2
        intro q hq2
        rw [← h2] at hq2
        simp at hq2
        simp [hq2]
      · injection h with h1 h2
        intro q hq2
        rw [← h2] at hq2
        simp at hq2
        simp [hq2]
    · injection h with h1 h2
      intro q hq2
      rw [← h2] at hq2
      simp at hq2
  · simp at h

/-- Every callback entry of `_cleanup` runs with the task counter
incremented. -/
lemma cleanup_trace (st : ModuleState) (extraNames : List String) :
    ∀ q ∈ (_cleanup st extraNames).2, q.2 = st.taskCounter + 1 := by
  unfold _cleanup
  split
  · simp
  · intro q hq
    simp at hq
    rcases hq with hq | ⟨n, _, hq⟩
    · simp [hq]
    · simp [← hq]

@[simp] lemma cleanup_taskCounter (st : ModuleState) (extraNames : List String) :
    ((_cleanup st extraNames).1).taskCounter = st.taskCounter := by
  unfold _cleanup
  split <;> rfl

/-- C3 (amended): `handle_event`, `handle_batch`, the single-event-arm
`finish`, and the cleanup callbacks each run with the task counter
incremented by one for the duration of the call (and the counter is
restored on exit, regardless of outcome — the TaskCounter scope is
modelled from the spec); but the `finish()` and `report()` invocations
of the batch arm run with the counter unchanged, i.e. they are not
counted. -/
theorem C3_task_counter (cfg : ModuleConfig) (scan : ScanState)
    (f : Event → FilterResult) (t : Bool) (st : ModuleState)
    (p : String × Nat) (extraNames : List String) :
    (p ∈ (_handle_batch cfg scan f t st).2.2 →
      (p.1 = "handle_batch" → p.2 = st.taskCounter + 1) ∧
      (p.1 = "finish" → p.2 = st.taskCounter) ∧
      (p.1 = "report" → p.2 = st.taskCounter)) ∧
    (∀ st2 : ModuleState, ∀ tr : List (String × Nat),
      workerIterationSingle cfg scan f st = WorkerStep.processed st2 tr →
      ∀ q ∈ tr, q.2 = st.taskCounter + 1) ∧
    (∀ q ∈ (_cleanup st extraNames).2, q.2 = st.taskCounter + 1) ∧
    ((_handle_batch cfg scan f t st).2.1.taskCounter = st.taskCounter) ∧
    ((workerIterationSingle cfg scan f st).state.taskCounter = st.taskCounter) ∧
    ((_cleanup st extraNames).1.taskCounter = st.taskCounter) := by
  refine ⟨?_, fun st2 tr h => workerIterationSingle_trace cfg scan f st st2 tr h,
    cleanup_trace st extraNames, by simp, by simp, by simp⟩
  intro hp
  by_cases hb : 1 < cfg.batch_size
  · by_cases hpos : num_incoming_events st > 0
    · rcases herr : st.errored with _ | _
      · rw [handle_batch_trace cfg scan f t st hb hpos herr] at hp
        rcases List.mem_append.mp hp with h | h
        · split at h
          · simp at h
          · simp at h
            refine ⟨fun _ => by simp [h], fun hc => ?_, fun hc => ?_⟩ <;>
              (rw [h] at hc; simp at hc)
        · split at h
          · simp at h
            refine ⟨fun hc => ?_, fun _ => by simp [h], fun hc => ?_⟩ <;>
              (rw [h] at hc; simp at hc)
          · split at h
            · simp at h
              refine ⟨fun hc => ?_, fun hc => ?_, fun _ => by simp [h]⟩ <;>
                (rw [h] at hc; simp at hc)
            · simp at h
      · rw [handle_batch_trace_errored cfg scan f t st hb hpos herr] at hp
        simp at hp
    · rw [handle_batch_trace_nopos cfg scan f t st hb hpos] at hp
      simp at hp
  · rw [handle_batch_trace_small cfg scan f t st (by omega)] at hp
    simp at hp

/-- C3 witness: at a concrete input, the `cleanup` callback runs with
the counter incremented. -/
theorem C3_task_counter_witness :
    (("cleanup", 1) : String × Nat).2 = st0.taskCounter + 1 :=
  (C3_task_counter cfg0 scan6 filterTrue false st0 ("cleanup", 1) []).2.2.1
    ("cleanup", 1) (by decide)

/-- C3 counterexample state: a queued `FINISHED` sentinel, counter 0. -/
def st3 : ModuleState :=
  { errored := false, incoming := QueueState.queue [evFin], outgoing := [],
    taskCounter := 0, eventReceivedNotifies := 0, eventDequeuedNotifies := 0,
    _cleanedup := false }

/-- C3 counterexample: in the batch arm a drained `FINISHED` sentinel
triggers `finish()` while the task counter still reads 0, although one
finish invocation is in flight — the batch-arm `finish()` is not run
under the task counter, refuting the claimed invariant. -/
theorem C3_counterexample :
    (_handle_batch cfg5 scan6 filterTrue false st3).2.2 = [("finish", 0)] ∧
    ¬ (∀ p ∈ (_handle_batch cfg5 scan6 filterTrue false st3).2.2,
        p.2 = st3.taskCounter + 1) := by
  refine ⟨by decide, fun hcl => ?_⟩
  exact absurd (hcl ("finish", 0) (by decide)) (by decide)

end BBot
